import Mathlib

/-!
Verification development for the todo-django repository.

Part 1 embeds the JWT session layer (src/todo_api/utils/jwt_service.py,
src/todo_api/views_auth.py, src/todo_api/decorators/*).
Part 2 embeds the dashboard membership / permission layer
(src/api/v1/todo/models/*, services/*, views/member/*).

Machine-independent shallow embedding: a signed JWT is modelled as its
payload together with the key it was signed with; time is an integer
number of seconds (Unix time); the Django cache is modelled as the
refresh-token store (a map from user id to the stored token) and, for the
rate limiter, as an optional counter entry carrying its expiry instant.
-/

/-! ## JWT service (src/todo_api/utils/jwt_service.py) -/

/-- `settings.SECRET_KEY`: the process-wide signing key. -/
def SECRET_KEY : String := "django-insecure-secret"

/-- `JWTService.Config.ACCESS_TOKEN_EXPIRATION = timedelta(minutes=15)`, in seconds. -/
def ACCESS_TOKEN_EXPIRATION : Int := 15 * 60

/-- `JWTService.Config.REFRESH_TOKEN_EXPIRATION = timedelta(days=7)`, in seconds. -/
def REFRESH_TOKEN_EXPIRATION : Int := 7 * 24 * 60 * 60

/-- The JWT claim set built by `JWTService._create_token_payload`:
`user_id`, `exp`, `type`, and for access tokens a `username` claim. -/
structure TokenPayload where
  user_id : Nat
  exp : Int
  type : String
  username : Option String
deriving DecidableEq

/-- A signed token: the payload plus the key it was signed with.
`jwt.encode(payload, key)` is injective on (payload, key) and
`jwt.decode` verifies the signature against the service key, so a signed
blob is faithfully represented by this pair. -/
structure JwtToken where
  payload : TokenPayload
  secret : String
deriving DecidableEq

/-- PyJWT's two decode failures as surfaced by the service:
`jwt.InvalidTokenError` (bad signature / malformed) and
`jwt.ExpiredSignatureError` (`exp` not in the future). -/
inductive TokenError where
  | invalid
  | expired
deriving DecidableEq

/-- A row of `django.contrib.auth.models.User` (the fields this core reads). -/
structure UserRec where
  id : Nat
  username : String
  email : String
deriving DecidableEq

/-- `jwt.decode(token, key, algorithms=[...])`: verify the signature first;
then reject when the `exp` claim is not strictly in the future. -/
def jwt_decode (now : Int) (key : String) (t : JwtToken) : Except TokenError TokenPayload :=
  if t.secret ≠ key then .error .invalid
  else if t.payload.exp ≤ now then .error .expired
  else .ok t.payload

/-- `JWTService._create_token_payload(user, expiration, token_type)`. -/
def create_token_payload (u : UserRec) (expiration : Int) (tokenType : String) : TokenPayload :=
  { user_id := u.id
    exp := expiration
    type := tokenType
    username := if tokenType = "access" then some u.username else none }

/-- `JWTService._create_token(user, token_type, expiration_delta)`: the
expiration is `self._current_time + expiration_delta`, and `__init__`
freezes `self._current_time = datetime.now(timezone.utc)` once, when the
module-level singleton `jwt_service` is constructed
(jwt_service.py:37,236,311). So every token the process issues is
expiry-anchored to the service-initialization instant `currentTime`, not
to the call instant — issuance time never advances within a process. -/
def create_token (currentTime : Int) (u : UserRec) (tokenType : String)
    (expirationDelta : Int) : JwtToken :=
  { payload := create_token_payload u (currentTime + expirationDelta) tokenType
    secret := SECRET_KEY }

/-- `JWTService.decode_token(token)`: decode with the service key
(the debug-print unverified decode changes nothing and the original error is re-raised). -/
def decode_token (now : Int) (t : JwtToken) : Except TokenError TokenPayload :=
  jwt_decode now SECRET_KEY t

/-- `JWTService.get_user_id_from_token(token)`: decode, then read the subject id;
every payload this service creates carries it in the `user_id` field, the first
field name the lookup loop tries. Any decode error yields `None`. -/
def get_user_id_from_token (now : Int) (t : JwtToken) : Option Nat :=
  match decode_token now t with
  | .ok p => some p.user_id
  | .error _ => none

/-- `JWTService.verify_token(token, expected_type)`: fails closed on decode
errors, otherwise compares the `type` claim exactly. -/
def verify_token (now : Int) (t : JwtToken) (expectedType : String) : Bool :=
  match decode_token now t with
  | .ok p => p.type = expectedType
  | .error _ => false

/-- Server-side authentication state: the user table and the cache entries
written under `refresh_token:{user_id}` (at most one per subject). -/
structure AuthState where
  users : List UserRec
  store : Nat → Option JwtToken

/-- `User.objects.get(id=uid)` as a lookup that can miss. -/
def findUser (users : List UserRec) (uid : Nat) : Option UserRec :=
  users.find? (fun u => u.id == uid)

/-- `JWTService.generate_token_pair(user)`: one access token
(anchor + 15 min) and one refresh token (anchor + 7 days), both
expiry-anchored to the frozen `_current_time`; the refresh token
overwrites the store entry for the user. -/
def generate_token_pair (currentTime : Int) (u : UserRec) (st : AuthState) :
    (JwtToken × JwtToken) × AuthState :=
  let access := create_token currentTime u "access" ACCESS_TOKEN_EXPIRATION
  let refresh := create_token currentTime u "refresh" REFRESH_TOKEN_EXPIRATION
  ((access, refresh),
   { st with store := fun k => if k = u.id then some refresh else st.store k })

/-- `JWTService.invalidate_user_tokens(user_id)`: delete the store entry. -/
def invalidate_user_tokens (uid : Nat) (st : AuthState) : AuthState :=
  { st with store := fun k => if k = uid then none else st.store k }

/-- `login_view` after `authenticate` succeeded for `u`
(src/todo_api/views_auth.py:132-140): invalidate the subject's stored
refresh token, then issue and return a pair. The issued tokens depend only
on the service's frozen anchor, so two logins in one process return
byte-identical pairs. -/
def login_view (currentTime : Int) (u : UserRec) (st : AuthState) :
    (JwtToken × JwtToken) × AuthState :=
  generate_token_pair currentTime u (invalidate_user_tokens u.id st)

/-- The combined `auth_tokens` cookie as written by
`JWTService.set_token_cookies`: a JSON object holding both tokens. -/
structure AuthTokensCookie where
  access_token : JwtToken
  refresh_token : JwtToken
deriving DecidableEq

/-- Modelled from the spec: `JWTService.get_token_from_cookie` is called by
`refresh_token_view` (src/todo_api/views_auth.py:209) but is not defined in
the source tree; per the spec the access+refresh pair travels in the single
combined auth cookie and `POST /auth/refresh` validates the refresh token
taken from that cookie, so the helper reads the requested member of the pair. -/
def get_token_from_cookie (cookie : Option AuthTokensCookie) (tokenType : String) :
    Option JwtToken :=
  match cookie with
  | none => none
  | some c => if tokenType = "refresh" then some c.refresh_token else some c.access_token

/-- The distinguishable outcomes of `refresh_token_view`. -/
inductive RefreshOutcome where
  | noToken
  | invalidToken
  | userNotFound (uid : Nat)
  | ok (access : JwtToken) (refresh : JwtToken)
deriving DecidableEq

/-- HTTP status attached to each `refresh_token_view` outcome. -/
def refresh_status : RefreshOutcome → Nat
  | .ok _ _ => 200
  | _ => 401

/-- `refresh_token_view` (src/todo_api/views_auth.py:204-251), for a POST
request carrying `cookie`: read the refresh token from the cookie, resolve
the subject id (any decode failure surfaces as a missing id), look the user
up, and on success issue a pair. PyJWT's decode checks `exp` against the
real wall time `now` of the request, while the issued pair is
expiry-anchored to the service's frozen `currentTime`. No check against the
stored refresh token is ever made. -/
def refresh_token_view (currentTime now : Int) (cookie : Option AuthTokensCookie)
    (st : AuthState) : RefreshOutcome × AuthState :=
  match get_token_from_cookie cookie "refresh" with
  | none => (.noToken, st)
  | some tok =>
    match get_user_id_from_token now tok with
    | none => (.invalidToken, st)
    | some uid =>
      match findUser st.users uid with
      | none => (.userNotFound uid, st)
      | some u =>
        let pair := generate_token_pair currentTime u st
        (.ok pair.1.1 pair.1.2, pair.2)

/-- Concrete user for evaluation. -/
def alice : UserRec := { id := 1, username := "alice", email := "alice@example.com" }

/-- Auth state holding only `alice`, with an empty token store. -/
def authState0 : AuthState := { users := [alice], store := fun _ => none }

/-- First login of the double-login trace. The service singleton was
constructed at instant 0, so every token it issues is anchored there. -/
def c1_login1 : (JwtToken × JwtToken) × AuthState := login_view 0 alice authState0

/-- Second login of the double-login trace: same process, hence the same
frozen anchor — the issued pair is byte-identical to the first login's. -/
def c1_login2 : (JwtToken × JwtToken) × AuthState := login_view 0 alice c1_login1.2

/-- The refresh call presenting the FIRST login's refresh token after the
second login, at wall time 20. -/
def c1_refresh : RefreshOutcome × AuthState :=
  refresh_token_view 0 20 (some ⟨c1_login1.1.1, c1_login1.1.2⟩) c1_login2.2

/-- Login trace for C2: the service singleton was constructed at instant 0
and `alice` logs in. -/
def c2Login : (JwtToken × JwtToken) × AuthState := login_view 0 alice authState0

/-- `POST /auth/refresh` at wall time 2000 — 33 minutes after service
start, the refresh token still far from its 7-day expiry — presenting the
login's refresh token. -/
def c2Refresh : RefreshOutcome × AuthState :=
  refresh_token_view 0 2000 (some ⟨c2Login.1.1, c2Login.1.2⟩) c2Login.2

/-! ## Authentication gate (src/todo_api/decorators/jwt_authentication_required.py) -/

/-- The `Authorization` header as the decorator classifies it:
absent, not of the form `Bearer <token>`, or a bearer token. -/
inductive AuthHeader where
  | absent
  | malformed
  | bearer (t : JwtToken)
deriving DecidableEq

/-- The slice of an HTTP request the gate can see: the `Authorization`
header and the combined auth cookie. -/
structure GateRequest where
  header : AuthHeader
  cookie : Option AuthTokensCookie
deriving DecidableEq

/-- Outcome of the gate: a 401 rejection with the decorator's message, or
the wrapped view invoked with `request.user` set to the resolved user. -/
inductive GateResult where
  | unauthorized (reason : String)
  | handled (u : UserRec)
deriving DecidableEq

/-- `jwt_authentication_required(view_func)` applied to a request: the token
is taken from the `Authorization` header only (the cookie is never read);
then signature/expiry are checked, the `type` claim must be `access`, and
the subject user must exist. -/
def jwt_authentication_required (now : Int) (users : List UserRec) (req : GateRequest) :
    GateResult :=
  match req.header with
  | .bearer tok =>
    match jwt_decode now SECRET_KEY tok with
    | .error .expired => .unauthorized "Token expired"
    | .error .invalid => .unauthorized "Invalid token"
    | .ok p =>
      if p.type ≠ "access" then .unauthorized "Invalid token type"
      else
        match findUser users p.user_id with
        | none => .unauthorized "Invalid token"
        | some u => .handled u
  | _ => .unauthorized "No token provided"

/-! ## Rate limiting (src/todo_api/decorators/rate_limit.py) -/

/-- A live cache entry for one rate-limit key: the counter value and the
instant the entry expires (Django `cache.set(key, value, timeout=period)`
sets expiry to `now + period`). -/
structure RateEntry where
  value : Nat
  expiresAt : Int
deriving DecidableEq

/-- `cache.get(key, 0)`: the stored counter while the entry is live,
the default 0 once it has expired or if it was never set. -/
def cache_get (now : Int) (e : Option RateEntry) : Nat :=
  match e with
  | some entry => if now < entry.expiresAt then entry.value else 0
  | none => 0

/-- One request through the `rate_limit(key_prefix, limit, period)` wrapper
for a fixed client key: read the counter; at or above the limit answer 429
(True) touching nothing; otherwise store counter+1 with a fresh TTL of
`period` and let the request through (False). -/
def rate_limit_step (limit : Nat) (period : Int) (now : Int) (e : Option RateEntry) :
    Bool × Option RateEntry :=
  let made := cache_get now e
  if limit ≤ made then (true, e)
  else (false, some { value := made + 1, expiresAt := now + period })

/-- A sequence of requests at the given instants through the rate limiter,
returning the 429 decisions and the final cache entry. -/
def rate_limit_run (limit : Nat) (period : Int) (times : List Int) (e : Option RateEntry) :
    List Bool × Option RateEntry :=
  match times with
  | [] => ([], e)
  | t :: ts =>
    let step := rate_limit_step limit period t e
    let rest := rate_limit_run limit period ts step.2
    (step.1 :: rest.1, rest.2)

/-- Modelled from the spec's words for comparison (refinement check of the
fixed-window reading): the counter entry keeps the expiry fixed when the
window opens — the first request after expiry restarts the window at
`now + period` — and counted requests do NOT refresh the TTL. -/
def fixed_window_step (limit : Nat) (period : Int) (now : Int) (e : Option RateEntry) :
    Bool × Option RateEntry :=
  match e with
  | some entry =>
    if now < entry.expiresAt then
      if limit ≤ entry.value then (true, some entry)
      else (false, some { value := entry.value + 1, expiresAt := entry.expiresAt })
    else
      if limit = 0 then (true, some entry)
      else (false, some { value := 1, expiresAt := now + period })
  | none =>
    if limit = 0 then (true, none)
    else (false, some { value := 1, expiresAt := now + period })

/-- The fixed-window reference model run over a sequence of instants. -/
def fixed_window_run (limit : Nat) (period : Int) (times : List Int) (e : Option RateEntry) :
    List Bool × Option RateEntry :=
  match times with
  | [] => ([], e)
  | t :: ts =>
    let step := fixed_window_step limit period t e
    let rest := fixed_window_run limit period ts step.2
    (step.1 :: rest.1, rest.2)

/-- `@rate_limit('verify', limit=30, period=60)` on `verify_token_view`
(src/todo_api/views_auth.py:255). -/
def verify_rate_limit : Nat × Int := (30, 60)

/-! ## Dashboard / membership data model (src/api/v1/todo) -/

/-- `DashboardMemberRole.OWNER` (src/api/v1/todo/constants.py). -/
def ROLE_OWNER : String := "owner"

/-- `DashboardMemberRole.EDITOR`. -/
def ROLE_EDITOR : String := "editor"

/-- `DashboardMemberRole.VIEWER`. -/
def ROLE_VIEWER : String := "viewer"

/-- A `Dashboard` row (the fields the permission/membership logic reads). -/
structure DashboardRec where
  id : Nat
  ownerId : Nat
  isPublic : Bool
deriving DecidableEq

/-- A `DashboardMember` row: primary key, the (dashboard, user) pair and
the role string. -/
structure MemberRec where
  id : Nat
  dashboardId : Nat
  userId : Nat
  role : String
deriving DecidableEq

/-- The relational state the membership/permission layer works over. -/
structure TodoState where
  users : List UserRec
  dashboards : List DashboardRec
  members : List MemberRec
deriving DecidableEq

/-- `Dashboard.objects.get(id=did)`. -/
def findDashboard (st : TodoState) (did : Nat) : Option DashboardRec :=
  st.dashboards.find? (fun d => d.id == did)

/-- `DashboardMember.objects.get(dashboard=did, user=uid)` (unique by the
`unique_together ['dashboard', 'user']` constraint). -/
def findMembership (st : TodoState) (did uid : Nat) : Option MemberRec :=
  st.members.find? (fun m => m.dashboardId == did && m.userId == uid)

/-- `User.objects.get(email=email)` as used by `MemberService.add_member`. -/
def findUserByEmail (st : TodoState) (email : String) : Option UserRec :=
  st.users.find? (fun u => u.email == email)

/-- `Dashboard.objects.create(...)` together with the `post_save` receiver
`create_owner_member` (src/api/v1/todo/models/dashboard.py:21-29): the new
dashboard row and, in the same save, a `DashboardMember` row for the owner
with role `owner`. `did`/`mid` are the fresh primary keys. -/
def create_dashboard (st : TodoState) (did mid ownerId : Nat) (isPublic : Bool) : TodoState :=
  { st with
    dashboards := { id := did, ownerId := ownerId, isPublic := isPublic } :: st.dashboards
    members := { id := mid, dashboardId := did, userId := ownerId, role := ROLE_OWNER }
      :: st.members }

/-! ## Permission service (src/api/v1/todo/services/permission_service.py) -/

/-- `PermissionService` answers: granted flag plus the denial/grant message. -/
structure PermissionResult where
  granted : Bool
  message : String
deriving DecidableEq

/-- `PermissionService.check_dashboard_access(dashboard_id)` with
`requester` the authenticated user behind `self.request`/`self.user`
(`none` when there is no request or no user). -/
def check_dashboard_access (st : TodoState) (requester : Option Nat) (did : Nat) :
    PermissionResult :=
  match requester with
  | none => { granted := false, message := "Authentication required" }
  | some uid =>
    match findDashboard st did with
    | none => { granted := false, message := "Dashboard not found" }
    | some d =>
      if d.isPublic then { granted := true, message := "Access granted" }
      else
        match findMembership st did uid with
        | none => { granted := false, message := "Access denied" }
        | some _ => { granted := true, message := "Access granted" }

/-- `PermissionService.check_dashboard_edit_permission(dashboard_id)`:
granted iff the requester's membership role is owner or editor. -/
def check_dashboard_edit_permission (st : TodoState) (requester : Option Nat) (did : Nat) :
    PermissionResult :=
  match requester with
  | none => { granted := false, message := "Authentication required" }
  | some uid =>
    match findDashboard st did with
    | none => { granted := false, message := "Dashboard not found" }
    | some _ =>
      match findMembership st did uid with
      | none => { granted := false, message := "Access denied" }
      | some m =>
        if m.role = ROLE_OWNER ∨ m.role = ROLE_EDITOR then
          { granted := true, message := "Edit permission granted" }
        else
          { granted := false, message := "Edit permission denied" }

/-- `PermissionService.check_dashboard_owner_permission(dashboard_id)`:
granted iff the dashboard exists and its `owner` reference is the requester. -/
def check_dashboard_owner_permission (st : TodoState) (requester : Option Nat) (did : Nat) :
    PermissionResult :=
  match requester with
  | none => { granted := false, message := "Authentication required" }
  | some uid =>
    match findDashboard st did with
    | none => { granted := false, message := "Dashboard not found" }
    | some d =>
      if d.ownerId = uid then { granted := true, message := "Access granted" }
      else { granted := false, message := "Only the owner can perform this action" }

/-- `PermissionService.get_user_role(user, dashboard)`: the membership role,
or `none` when the user is not a member. -/
def get_user_role (st : TodoState) (uid did : Nat) : Option String :=
  (findMembership st did uid).map (fun m => m.role)

/-! ## Member service and views (src/api/v1/todo/services/member_service.py,
src/api/v1/todo/views/member/*) -/

/-- The exceptions that cross the service boundary: `APIError(message, status)`
and Python `TypeError` (raised when `APIError` is constructed with an extra
positional argument, as `MemberService.add_member` does on both of its
error paths). -/
inductive Exc where
  | apiError (message : String) (status : Nat)
  | typeError (context : String)
deriving DecidableEq

/-- `handle_exception` (src/api/v1/todo/utils/responses.py): an `APIError`
keeps its carried status; any other exception becomes a 500. -/
def handle_exception : Exc → Nat
  | .apiError _ s => s
  | .typeError _ => 500

/-- `MemberService.get_member(member_id)`: the row, or `APIError 404`. -/
def get_member (st : TodoState) (memberId : Nat) : Except Exc MemberRec :=
  match st.members.find? (fun m => m.id == memberId) with
  | some m => .ok m
  | none => .error (.apiError "Member not found" 404)

/-- `MemberService.add_member(dashboard_id, email, role)`: resolve the user
by email and reject duplicates for the (dashboard, user) pair. Both error
paths execute `raise APIError(message, code, status)` — three positional
arguments against `APIError.__init__(self, message, status=400)` — so what
is actually raised is a `TypeError`, not the intended `APIError`. -/
def add_member (st : TodoState) (newMemberId dashboardId : Nat) (email role : String) :
    Except Exc (MemberRec × TodoState) :=
  match findUserByEmail st email with
  | none => .error (.typeError "APIError() takes 2 positional arguments but 3 were given")
  | some u =>
    if st.members.any (fun m => m.dashboardId == dashboardId && m.userId == u.id) then
      .error (.typeError "APIError() takes 2 positional arguments but 3 were given")
    else
      let m : MemberRec :=
        { id := newMemberId, dashboardId := dashboardId, userId := u.id, role := role }
      .ok (m, { st with members := st.members ++ [m] })

/-- `MemberService.update_member_role(member_id, role)`: re-fetch the row and
save it with the new role. -/
def update_member_role (st : TodoState) (memberId : Nat) (role : String) :
    Except Exc (MemberRec × TodoState) :=
  match get_member st memberId with
  | .error e => .error e
  | .ok m =>
    .ok ({ m with role := role },
      { st with members :=
          st.members.map (fun x => if x.id == memberId then { x with role := role } else x) })

/-- `MemberService.remove_member(member_id)`: re-fetch the row and delete it. -/
def remove_member (st : TodoState) (memberId : Nat) : Except Exc TodoState :=
  match get_member st memberId with
  | .error e => .error e
  | .ok _ => .ok { st with members := st.members.filter (fun x => x.id != memberId) }

/-- `MemberCollectionView.post` (src/api/v1/todo/views/member/member_collection.py):
owner permission first (403), then the body — `email` required (400), `role`
defaulting to viewer and validated against {editor, viewer} (400) — then
`add_member`, whose exceptions go through `handle_exception`. Returns the
HTTP status and the resulting state. -/
def member_collection_post (st : TodoState) (requester : Option Nat) (dashboardId : Nat)
    (newMemberId : Nat) (email : Option String) (roleField : Option String) :
    Nat × TodoState :=
  if (check_dashboard_owner_permission st requester dashboardId).granted then
    match email with
    | none => (400, st)
    | some em =>
      if roleField.getD ROLE_VIEWER ≠ ROLE_EDITOR ∧ roleField.getD ROLE_VIEWER ≠ ROLE_VIEWER
      then (400, st)
      else
        match add_member st newMemberId dashboardId em (roleField.getD ROLE_VIEWER) with
        | .error e => (handle_exception e, st)
        | .ok r => (201, r.2)
  else (403, st)

/-- `MemberDetailView.put` (src/api/v1/todo/views/member/member_detail.py):
owner permission (403), `role` required (400) and validated against
{editor, viewer} (400), the member re-fetched and checked to belong to the
dashboard (404), the owner membership protected (403), then the update.
`roleField = none` models a body without a `role` key. -/
def member_detail_put (st : TodoState) (requester : Option Nat) (dashboardId memberId : Nat)
    (roleField : Option String) : Nat × TodoState :=
  if (check_dashboard_owner_permission st requester dashboardId).granted then
    match roleField with
    | none => (400, st)
    | some role =>
      if role ≠ ROLE_EDITOR ∧ role ≠ ROLE_VIEWER then (400, st)
      else
        match get_member st memberId with
        | .error e => (handle_exception e, st)
        | .ok m =>
          if m.dashboardId ≠ dashboardId then (404, st)
          else if m.role = ROLE_OWNER then (403, st)
          else
            match update_member_role st memberId role with
            | .error e => (handle_exception e, st)
            | .ok r => (200, r.2)
  else (403, st)

/-- `MemberDetailView.delete`: owner permission (403), the member re-fetched
and checked to belong to the dashboard (404), the owner membership
protected (403), then the removal. -/
def member_detail_delete (st : TodoState) (requester : Option Nat)
    (dashboardId memberId : Nat) : Nat × TodoState :=
  if (check_dashboard_owner_permission st requester dashboardId).granted then
    match get_member st memberId with
    | .error e => (handle_exception e, st)
    | .ok m =>
      if m.dashboardId ≠ dashboardId then (404, st)
      else if m.role = ROLE_OWNER then (403, st)
      else
        match remove_member st memberId with
        | .error e => (handle_exception e, st)
        | .ok st2 => (200, st2)
  else (403, st)

/-- Any two owner-role membership rows of the same dashboard in `ms` are
the same row. -/
def ownersConsistent (ms : List MemberRec) : Prop :=
  ∀ m1 ∈ ms, ∀ m2 ∈ ms,
    m1.role = ROLE_OWNER → m2.role = ROLE_OWNER →
      m1.dashboardId = m2.dashboardId → m1 = m2

instance (ms : List MemberRec) : Decidable (ownersConsistent ms) := by
  unfold ownersConsistent
  infer_instance

/-- The C10 invariant: every dashboard has at most one owner membership. -/
def atMostOneOwner (st : TodoState) : Prop :=
  ownersConsistent st.members

instance (st : TodoState) : Decidable (atMostOneOwner st) := by
  unfold atMostOneOwner
  infer_instance

/-- Second concrete user for evaluation. -/
def bob : UserRec := { id := 2, username := "bob", email := "bob@example.com" }

/-- Concrete state: `alice` owns dashboard 1 and holds its sole (owner)
membership row; `bob` exists but is not a member. -/
def c5State : TodoState :=
  { users := [alice, bob]
    dashboards := [{ id := 1, ownerId := 1, isPublic := false }]
    members := [{ id := 1, dashboardId := 1, userId := 1, role := ROLE_OWNER }] }

/-- State after the dashboard owner successfully adds `bob` as viewer. -/
def c6After : Nat × TodoState :=
  member_collection_post c5State (some 1) 1 2 (some "bob@example.com") (some ROLE_VIEWER)

/-- Concrete state for C4: dashboard 1 owned by `alice`, with `bob` a
viewer member. -/
def c4State : TodoState :=
  { users := [alice, bob]
    dashboards := [{ id := 1, ownerId := 1, isPublic := false }]
    members := [{ id := 1, dashboardId := 1, userId := 1, role := ROLE_OWNER },
                { id := 2, dashboardId := 1, userId := 2, role := ROLE_VIEWER }] }

/-- Empty todo state holding only the user `alice`. -/
def todoState0 : TodoState := { users := [alice], dashboards := [], members := [] }

/-- A refresh token whose signature does not verify against the service key. -/
def c2TokenBadSig : JwtToken :=
  { payload := { user_id := 1, exp := 1000000, type := "refresh", username := none }
    secret := "some-other-key" }

/-- Cookie carrying the badly signed token. -/
def c2CookieBad : AuthTokensCookie :=
  { access_token := c2TokenBadSig, refresh_token := c2TokenBadSig }

/-- A well-signed refresh token for subject 7, who is not in the user table. -/
def c2CookieGhost : AuthTokensCookie :=
  { access_token := create_token 0 { id := 7, username := "ghost", email := "g@x" }
      "access" ACCESS_TOKEN_EXPIRATION
    refresh_token := create_token 0 { id := 7, username := "ghost", email := "g@x" }
      "refresh" REFRESH_TOKEN_EXPIRATION }

/-- A properly signed access token whose expiry (900) is already past at
decode time 1000. -/
def c7Expired : JwtToken :=
  { payload := { user_id := 1, exp := 900, type := "access", username := some "alice" }
    secret := SECRET_KEY }

/-- A valid access token for `alice`, issued at time 0. -/
def c8Tok : JwtToken := create_token 0 alice "access" ACCESS_TOKEN_EXPIRATION

/-- The combined auth cookie holding a valid pair for `alice`. -/
def c8Cookie : AuthTokensCookie :=
  { access_token := c8Tok
    refresh_token := create_token 0 alice "refresh" REFRESH_TOKEN_EXPIRATION }

/-- A request with no `Authorization` header whose auth cookie carries a
valid access token. -/
def c8Request : GateRequest := { header := .absent, cookie := some c8Cookie }

/-! ## Theorems -/

/-- Appending a single non-owner membership row preserves owner uniqueness. -/
theorem ownersConsistent_append_nonowner (ms : List MemberRec) (m : MemberRec)
    (h : ownersConsistent ms) (hm : m.role ≠ ROLE_OWNER) :
    ownersConsistent (ms ++ [m]) := by
  intro m1 h1 m2 h2 ho1 ho2 hd
  rw [List.mem_append, List.mem_singleton] at h1 h2
  rcases h1 with h1 | rfl
  · rcases h2 with h2 | rfl
    · exact h m1 h1 m2 h2 ho1 ho2 hd
    · exact absurd ho2 hm
  · exact absurd ho1 hm

/-- Re-roling one membership row to a non-owner role preserves owner uniqueness. -/
theorem ownersConsistent_update_nonowner (ms : List MemberRec) (memberId : Nat)
    (role : String) (h : ownersConsistent ms) (hr : role ≠ ROLE_OWNER) :
    ownersConsistent
      (ms.map (fun x => if x.id == memberId then { x with role := role } else x)) := by
  intro m1 h1 m2 h2 ho1 ho2 hd
  rw [List.mem_map] at h1 h2
  obtain ⟨x1, hx1, rfl⟩ := h1
  obtain ⟨x2, hx2, rfl⟩ := h2
  by_cases e1 : (x1.id == memberId) = true
  · rw [if_pos e1] at ho1
    exact absurd ho1 hr
  · by_cases e2 : (x2.id == memberId) = true
    · rw [if_pos e2] at ho2
      exact absurd ho2 hr
    · rw [if_neg e1] at ho1 hd ⊢
      rw [if_neg e2] at ho2 hd ⊢
      exact h x1 hx1 x2 hx2 ho1 ho2 hd

/-- Deleting membership rows preserves owner uniqueness. -/
theorem ownersConsistent_filter (ms : List MemberRec) (p : MemberRec → Bool)
    (h : ownersConsistent ms) : ownersConsistent (ms.filter p) := by
  intro m1 h1 m2 h2
  rw [List.mem_filter] at h1 h2
  exact h m1 h1.1 m2 h2.1

/-- Prepending an owner membership row of a dashboard no existing row
references preserves owner uniqueness. -/
theorem ownersConsistent_cons_fresh (ms : List MemberRec) (newm : MemberRec)
    (h : ownersConsistent ms) (hfresh : ∀ m ∈ ms, m.dashboardId ≠ newm.dashboardId) :
    ownersConsistent (newm :: ms) := by
  intro m1 h1 m2 h2 ho1 ho2 hd
  rw [List.mem_cons] at h1 h2
  rcases h1 with rfl | h1
  · rcases h2 with rfl | h2
    · rfl
    · exact absurd hd.symm (hfresh m2 h2)
  · rcases h2 with rfl | h2
    · exact absurd hd (hfresh m1 h1)
    · exact h m1 h1 m2 h2 ho1 ho2 hd

/-- A token signed with the service key whose expiry is still ahead decodes
to its payload. -/
theorem decode_token_ok (now : Int) (t : JwtToken)
    (hs : t.secret = SECRET_KEY) (he : now < t.payload.exp) :
    decode_token now t = .ok t.payload := by
  unfold decode_token jwt_decode
  rw [hs, if_neg (by simp), if_neg (by omega)]

/-- A successful `add_member` extends the member table by exactly the one
new row, carrying the requested role. -/
theorem add_member_ok_state (st : TodoState) (nid did : Nat) (em role : String)
    (r : MemberRec × TodoState) (h : add_member st nid did em role = .ok r) :
    ∃ uid, r.2.members =
      st.members ++ [{ id := nid, dashboardId := did, userId := uid, role := role }] := by
  unfold add_member at h
  split at h
  · cases h
  next u hu =>
    split at h
    · cases h
    · cases h
      exact ⟨u.id, rfl⟩

/-- A successful `update_member_role` rewrites exactly the targeted row's role. -/
theorem update_member_role_ok_state (st : TodoState) (memberId : Nat) (role : String)
    (r : MemberRec × TodoState) (h : update_member_role st memberId role = .ok r) :
    r.2.members =
      st.members.map (fun x => if x.id == memberId then { x with role := role } else x) := by
  unfold update_member_role at h
  cases hg : get_member st memberId with
  | error e => rw [hg] at h; cases h
  | ok m => rw [hg] at h; cases h; rfl

/-- A successful `remove_member` filters out exactly the targeted row. -/
theorem remove_member_ok_state (st : TodoState) (memberId : Nat)
    (st2 : TodoState) (h : remove_member st memberId = .ok st2) :
    st2.members = st.members.filter (fun x => x.id != memberId) := by
  unfold remove_member at h
  cases hg : get_member st memberId with
  | error e => rw [hg] at h; cases h
  | ok m => rw [hg] at h; cases h; rfl

/-- C1: the spec requires that after logging in twice in succession, the
first login's refresh token is rejected by `POST /auth/refresh`; the code
rejects nothing: it never re-checks the presented token against the token
store, and because every issued token's expiry is anchored to the frozen
`_current_time`, both logins yield byte-identical refresh tokens, so the
service could not even distinguish the first login's token from the
currently stored one. This theorem evaluates the embedded code on the
two-login trace: the two refresh tokens coincide, the store holds that
token, and presenting the first login's refresh token at wall time 20 is
answered 200 with an issued pair. -/
theorem c1_refresh_accepts_stale_refresh_token :
    c1_login1.1.2 = c1_login2.1.2
    ∧ c1_login2.2.store alice.id = some c1_login1.1.2
    ∧ c1_refresh.1 =
        RefreshOutcome.ok (create_token 0 alice "access" ACCESS_TOKEN_EXPIRATION)
          (create_token 0 alice "refresh" REFRESH_TOKEN_EXPIRATION)
    ∧ refresh_status c1_refresh.1 = 200 := by
  refine ⟨by decide, by decide, by decide, by decide⟩

/-- C2: the claim says `POST /auth/refresh` issues and returns a brand-new
access+refresh pair, overwriting the stored refresh token. In the code the
pair's expiries are anchored to `_current_time`, frozen when the service
singleton was constructed: a refresh at wall time 2000 (service anchor 0)
returns a pair byte-identical to the one issued at login — the overwrite
stores the very same token, rotating nothing — and the returned access
token, with expiry 900, is already expired at issuance. The error paths do
match the claim: a token whose signature does not verify is a 401
invalid-token rejection, and a decodable token whose subject is gone a
401 user-not-found rejection. This theorem evaluates the embedded code at
that failing input and at the two error inputs. -/
theorem c2_refresh_returns_init_anchored_pair :
    c2Refresh.1 =
        RefreshOutcome.ok (create_token 0 alice "access" ACCESS_TOKEN_EXPIRATION)
          (create_token 0 alice "refresh" REFRESH_TOKEN_EXPIRATION)
    ∧ create_token 0 alice "refresh" REFRESH_TOKEN_EXPIRATION = c2Login.1.2
    ∧ decode_token 2000 (create_token 0 alice "access" ACCESS_TOKEN_EXPIRATION)
        = .error .expired
    ∧ c2Refresh.2.store alice.id = some c2Login.1.2
    ∧ refresh_token_view 0 10 (some c2CookieBad) authState0 = (.invalidToken, authState0)
    ∧ refresh_token_view 0 10 (some c2CookieGhost) authState0
        = (.userNotFound 7, authState0) := by
  refine ⟨by decide, by decide, rfl, by decide, rfl, rfl⟩

/-- C7: an access token encoded for a subject with expiry 15 minutes ahead
decodes back to a payload carrying the same subject id and type `access`;
any service-signed token whose expiry lies strictly in the past at decode
time fails with the expired-token error. -/
theorem c7_token_roundtrip_and_expiry (u : UserRec) (now : Int) :
    decode_token now (create_token now u "access" ACCESS_TOKEN_EXPIRATION)
      = .ok (create_token_payload u (now + ACCESS_TOKEN_EXPIRATION) "access")
    ∧ (create_token_payload u (now + ACCESS_TOKEN_EXPIRATION) "access").user_id = u.id
    ∧ (create_token_payload u (now + ACCESS_TOKEN_EXPIRATION) "access").type = "access"
    ∧ (∀ later : Int, ∀ t : JwtToken, t.secret = SECRET_KEY → t.payload.exp < later →
        decode_token later t = .error .expired) := by
  refine ⟨?_, rfl, rfl, ?_⟩
  · exact decode_token_ok now (create_token now u "access" ACCESS_TOKEN_EXPIRATION) rfl
      (by show now < now + ACCESS_TOKEN_EXPIRATION; unfold ACCESS_TOKEN_EXPIRATION; omega)
  · intro later t hs he
    unfold decode_token jwt_decode
    rw [hs, if_neg (by simp), if_pos (le_of_lt he)]

/-- C7 witness: the round trip at subject `alice`, time 0, and an expired
token decoded at time 1000. -/
theorem c7_token_roundtrip_and_expiry_witness :
    decode_token 0 (create_token 0 alice "access" ACCESS_TOKEN_EXPIRATION)
      = .ok (create_token_payload alice (0 + ACCESS_TOKEN_EXPIRATION) "access")
    ∧ decode_token 1000 c7Expired = .error .expired := by
  refine ⟨(c7_token_roundtrip_and_expiry alice 0).1, ?_⟩
  exact (c7_token_roundtrip_and_expiry alice 0).2.2.2 1000 c7Expired rfl (by decide)

/-- C3: creating a dashboard with a fresh id creates, in the same save,
exactly one membership row (dashboard, owner, role=owner), and
`get_user_role` then answers owner for the owner. -/
theorem c3_create_owner_membership (st : TodoState) (did mid ownerId : Nat)
    (isPublic : Bool) (hfresh : ∀ m ∈ st.members, m.dashboardId ≠ did) :
    ((create_dashboard st did mid ownerId isPublic).members.filter
        (fun m => m.dashboardId == did && m.userId == ownerId && m.role == ROLE_OWNER)).length
      = 1
    ∧ get_user_role (create_dashboard st did mid ownerId isPublic) ownerId did
        = some ROLE_OWNER := by
  have hnil : st.members.filter
      (fun m => m.dashboardId == did && m.userId == ownerId && m.role == ROLE_OWNER) = [] := by
    rw [List.filter_eq_nil_iff]
    intro m hm hp
    have hd : m.dashboardId = did := by
      simp only [Bool.and_eq_true, beq_iff_eq] at hp
      tauto
    exact hfresh m hm hd
  constructor
  · simp only [create_dashboard]
    rw [List.filter_cons_of_pos (by simp), hnil]
    rfl
  · simp only [get_user_role, findMembership, create_dashboard]
    rw [List.find?_cons_of_pos _ (by simp)]
    rfl

/-- C3 witness: dashboard 1 created by user 1 in the empty state. -/
theorem c3_create_owner_membership_witness :
    ((create_dashboard todoState0 1 1 1 false).members.filter
        (fun m => m.dashboardId == 1 && m.userId == 1 && m.role == ROLE_OWNER)).length = 1
    ∧ get_user_role (create_dashboard todoState0 1 1 1 false) 1 1 = some ROLE_OWNER :=
  c3_create_owner_membership todoState0 1 1 1 false (by simp [todoState0])

/-- C4: for a member `v` of dashboard `d`, edit permission is granted iff
the membership role is owner or editor; hence for roles in
{editor, viewer} it is granted iff the role is editor; and for `v`
distinct from the dashboard's owner, owner permission is always denied. -/
theorem c4_member_role_permissions (st : TodoState) (d : DashboardRec) (v : Nat)
    (m : MemberRec) (hd : findDashboard st d.id = some d)
    (hm : findMembership st d.id v = some m) :
    ((check_dashboard_edit_permission st (some v) d.id).granted = true
      ↔ (m.role = ROLE_OWNER ∨ m.role = ROLE_EDITOR))
    ∧ (m.role = ROLE_EDITOR ∨ m.role = ROLE_VIEWER →
        ((check_dashboard_edit_permission st (some v) d.id).granted = true
          ↔ m.role = ROLE_EDITOR))
    ∧ (v ≠ d.ownerId →
        (check_dashboard_owner_permission st (some v) d.id).granted = false) := by
  have key : (check_dashboard_edit_permission st (some v) d.id).granted = true
      ↔ (m.role = ROLE_OWNER ∨ m.role = ROLE_EDITOR) := by
    simp only [check_dashboard_edit_permission, hd, hm]
    by_cases hc : m.role = ROLE_OWNER ∨ m.role = ROLE_EDITOR
    · rw [if_pos hc]
      simpa using hc
    · rw [if_neg hc]
      simpa using hc
  refine ⟨key, ?_, ?_⟩
  · intro hr
    constructor
    · intro h
      rcases key.mp h with ho | he
      · rcases hr with he2 | hv2
        · rw [he2] at ho
          exact absurd ho (by decide)
        · rw [hv2] at ho
          exact absurd ho (by decide)
      · exact he
    · intro he
      exact key.mpr (Or.inr he)
  · intro hv
    simp only [check_dashboard_owner_permission, hd]
    rw [if_neg (fun hcon => hv hcon.symm)]

/-- C4 witness: `bob` (user 2), a viewer on dashboard 1 owned by `alice`. -/
theorem c4_member_role_permissions_witness :
    ((check_dashboard_edit_permission c4State (some 2) 1).granted = true
      ↔ (ROLE_VIEWER = ROLE_EDITOR))
    ∧ (check_dashboard_owner_permission c4State (some 2) 1).granted = false := by
  have h := c4_member_role_permissions c4State
    { id := 1, ownerId := 1, isPublic := false } 2
    { id := 2, dashboardId := 1, userId := 2, role := ROLE_VIEWER } rfl rfl
  exact ⟨h.2.1 (Or.inr rfl), h.2.2 (by decide)⟩

/-- C5 counterexample: a PUT by the dashboard owner that targets the owner
membership row but carries the invalid role value `admin` is answered 400,
not 403, refuting the claim that every role-change request against the
owner membership fails with 403. -/
theorem c5_counterexample_put_invalid_role_400 :
    (member_detail_put c5State (some 1) 1 1 (some "admin")).1 = 400
    ∧ (member_detail_put c5State (some 1) 1 1 (some "admin")).1 ≠ 403
    ∧ get_member c5State 1
        = .ok { id := 1, dashboardId := 1, userId := 1, role := ROLE_OWNER } := by
  refine ⟨rfl, by decide, rfl⟩

/-- C5 (amended): a PUT whose requested role passes validation
(editor/viewer), and any DELETE, targeting the owner membership row fails
with 403 regardless of which authenticated user requests it; and a PUT
against the owner membership never changes the state, whatever the body
carries (an invalid role fails earlier with 400). -/
theorem c5_owner_membership_protected (st : TodoState) (requester : Option Nat)
    (dashboardId memberId : Nat) (m : MemberRec)
    (hm : get_member st memberId = .ok m)
    (hdash : m.dashboardId = dashboardId)
    (howner : m.role = ROLE_OWNER) :
    (∀ role, role = ROLE_EDITOR ∨ role = ROLE_VIEWER →
      member_detail_put st requester dashboardId memberId (some role) = (403, st))
    ∧ member_detail_delete st requester dashboardId memberId = (403, st)
    ∧ (∀ roleField, (member_detail_put st requester dashboardId memberId roleField).2 = st) := by
  cases hp : (check_dashboard_owner_permission st requester dashboardId).granted with
  | false =>
    refine ⟨?_, ?_, ?_⟩
    · intro role hrole
      simp [member_detail_put, hp]
    · simp [member_detail_delete, hp]
    · intro roleField
      simp [member_detail_put, hp]
  | true =>
    have hval : ∀ role, role = ROLE_EDITOR ∨ role = ROLE_VIEWER →
        ¬(role ≠ ROLE_EDITOR ∧ role ≠ ROLE_VIEWER) := by
      intro role hrole hcon
      rcases hrole with h | h
      · exact hcon.1 h
      · exact hcon.2 h
    refine ⟨?_, ?_, ?_⟩
    · intro role hrole
      simp [member_detail_put, hp, hval role hrole, hm, hdash, howner]
    · simp [member_detail_delete, hp, hm, hdash, howner]
    · intro roleField
      cases roleField with
      | none => simp [member_detail_put, hp]
      | some role =>
        by_cases hv : role ≠ ROLE_EDITOR ∧ role ≠ ROLE_VIEWER
        · simp [member_detail_put, hp, hv]
        · simp [member_detail_put, hp, hv, hm, hdash, howner]

/-- C5 witness: requests by `bob` (not the owner) against the owner
membership row of dashboard 1. -/
theorem c5_owner_membership_protected_witness :
    member_detail_put c5State (some 2) 1 1 (some ROLE_VIEWER) = (403, c5State)
    ∧ member_detail_delete c5State (some 2) 1 1 = (403, c5State)
    ∧ (member_detail_put c5State (some 2) 1 1 (some "admin")).2 = c5State := by
  have h := c5_owner_membership_protected c5State (some 2) 1 1
    { id := 1, dashboardId := 1, userId := 1, role := ROLE_OWNER } rfl rfl rfl
  exact ⟨h.1 ROLE_VIEWER (Or.inr rfl), h.2.1, h.2.2 (some "admin")⟩

/-- C6: adding the same (dashboard, user) pair a second time does not
create a second row, but it is answered 500, not 409 Conflict: the
duplicate branch executes `raise APIError(message, "already_member", 400)`,
three positional arguments against the two-argument `APIError` constructor,
so a `TypeError` is raised and `handle_exception` maps it to 500. This
theorem evaluates the embedded code on the duplicate-add input. -/
theorem c6_duplicate_member_500_not_409 :
    c6After.1 = 201
    ∧ (c6After.2.members.filter (fun m => m.dashboardId == 1 && m.userId == 2)).length = 1
    ∧ member_collection_post c6After.2 (some 1) 1 3 (some "bob@example.com") (some ROLE_VIEWER)
        = (500, c6After.2)
    ∧ add_member c6After.2 3 1 "bob@example.com" ROLE_VIEWER
        = .error (.typeError "APIError() takes 2 positional arguments but 3 were given") := by
  refine ⟨rfl, rfl, rfl, rfl⟩

/-- C8 counterexample: a request with no `Authorization` header whose auth
cookie carries a valid, unexpired access token for an existing user is
rejected 401 by the gate — the cookie is never consulted — refuting the
claim that the gate extracts the bearer token from the header OR from the
auth cookie. -/
theorem c8_counterexample_cookie_never_read :
    jwt_authentication_required 10 [alice] c8Request
      = .unauthorized "No token provided"
    ∧ verify_token 10 c8Cookie.access_token "access" = true
    ∧ findUser [alice] c8Cookie.access_token.payload.user_id = some alice := by
  refine ⟨rfl, by decide, rfl⟩

/-- C8 (amended): the gate reads the bearer token from the `Authorization`
header only — its result never depends on the cookie — and rejects 401
when the header is absent or malformed, when decode fails, when the type
claim is not `access`, or when the subject user no longer exists;
otherwise it attaches the resolved user and invokes the handler. -/
theorem c8_gate_header_only_behavior (now : Int) (users : List UserRec) (req : GateRequest) :
    (∀ c, jwt_authentication_required now users { req with cookie := c }
        = jwt_authentication_required now users req)
    ∧ (req.header = .absent ∨ req.header = .malformed →
        jwt_authentication_required now users req = .unauthorized "No token provided")
    ∧ (∀ tok, req.header = .bearer tok →
        (jwt_decode now SECRET_KEY tok = .error .expired →
          jwt_authentication_required now users req = .unauthorized "Token expired")
        ∧ (jwt_decode now SECRET_KEY tok = .error .invalid →
          jwt_authentication_required now users req = .unauthorized "Invalid token")
        ∧ (∀ p, jwt_decode now SECRET_KEY tok = .ok p →
            (p.type ≠ "access" →
              jwt_authentication_required now users req = .unauthorized "Invalid token type")
            ∧ (p.type = "access" → findUser users p.user_id = none →
              jwt_authentication_required now users req = .unauthorized "Invalid token")
            ∧ (∀ u, p.type = "access" → findUser users p.user_id = some u →
              jwt_authentication_required now users req = .handled u))) := by
  refine ⟨fun c => rfl, ?_, ?_⟩
  · intro h
    rcases h with h | h <;> simp [jwt_authentication_required, h]
  · intro tok htok
    refine ⟨?_, ?_, ?_⟩
    · intro hdec
      simp [jwt_authentication_required, htok, hdec]
    · intro hdec
      simp [jwt_authentication_required, htok, hdec]
    · intro p hdec
      refine ⟨?_, ?_, ?_⟩
      · intro hty
        simp [jwt_authentication_required, htok, hdec, hty]
      · intro hty hu
        simp [jwt_authentication_required, htok, hdec, hty, hu]
      · intro u hty hu
        simp [jwt_authentication_required, htok, hdec, hty, hu]

/-- C8 witness: a valid bearer header resolves and invokes the handler as
`alice`; a header-less request is 401 whatever its cookie holds. -/
theorem c8_gate_header_only_behavior_witness :
    jwt_authentication_required 10 [alice]
        { header := .bearer c8Tok, cookie := none } = .handled alice
    ∧ jwt_authentication_required 10 [alice] c8Request
        = .unauthorized "No token provided" := by
  have h := c8_gate_header_only_behavior 10 [alice]
    { header := .bearer c8Tok, cookie := none }
  have h2 := c8_gate_header_only_behavior 10 [alice] c8Request
  refine ⟨?_, h2.2.1 (Or.inl rfl)⟩
  exact ((h.2.2 c8Tok rfl).2.2
    (create_token_payload alice (0 + ACCESS_TOKEN_EXPIRATION) "access") rfl).2.2
    alice rfl rfl

/-- C9 counterexample: with limit 2 and period 60, requests at instants
0, 50 and 70 — under a fixed window opened at instant 0 the entry would
have expired at 60, so the request at 70 would be counted afresh and
allowed; the code, whose counted requests each refresh the TTL, still holds
the counter at 2 and answers 429. The window is therefore not a fixed
window that resets on the first request after expiry. -/
theorem c9_counterexample_window_not_fixed :
    (rate_limit_run 2 60 [0, 50, 70] none).1 = [false, false, true]
    ∧ (fixed_window_run 2 60 [0, 50, 70] none).1 = [false, false, false] :=
  ⟨rfl, rfl⟩

/-- C9 (amended): a request is answered 429 exactly when the per-key
counter already carries at least the limit at that instant; an allowed
request stores counter+1 with the TTL refreshed to `now + period` (so the
window extends while counted requests keep arriving within one period,
rather than staying fixed); an entry whose expiry has passed reads as 0,
so the first request after expiry restarts the count; `GET /auth/verify`
is limited 30 per 60 seconds. -/
theorem c9_rate_limit_counter_semantics (limit : Nat) (period now : Int)
    (e : Option RateEntry) :
    ((rate_limit_step limit period now e).1 = true ↔ limit ≤ cache_get now e)
    ∧ (cache_get now e < limit →
        rate_limit_step limit period now e
          = (false, some { value := cache_get now e + 1, expiresAt := now + period }))
    ∧ (∀ entry, e = some entry → entry.expiresAt ≤ now → cache_get now e = 0)
    ∧ verify_rate_limit = (30, 60) := by
  refine ⟨?_, ?_, ?_, rfl⟩
  · simp only [rate_limit_step]
    by_cases h : limit ≤ cache_get now e
    · rw [if_pos h]
      simpa using h
    · rw [if_neg h]
      simpa using h
  · intro h
    simp only [rate_limit_step]
    rw [if_neg (by omega)]
  · intro entry he hexp
    rw [he]
    simp only [cache_get]
    rw [if_neg (by omega)]

/-- C9 witness: a first request at instant 0, and an expired entry read at
instant 100. -/
theorem c9_rate_limit_counter_semantics_witness :
    rate_limit_step 30 60 0 none = (false, some { value := 1, expiresAt := 60 })
    ∧ cache_get 100 (some { value := 5, expiresAt := 60 }) = 0 := by
  refine ⟨?_, ?_⟩
  · exact (c9_rate_limit_counter_semantics 30 60 0 none).2.1 (by decide)
  · exact (c9_rate_limit_counter_semantics 30 60 100
      (some { value := 5, expiresAt := 60 })).2.2.1 { value := 5, expiresAt := 60 } rfl
      (by decide)

/-- C10: the member views validate the requested role against
{editor, viewer} and answer 400 without touching the member table on any
other value (owner included); and every member-management operation —
adding, re-roling, removing, and dashboard creation itself (the one place
an owner membership is assigned) — preserves the invariant that each
dashboard has at most one owner membership row. -/
theorem c10_role_validation_and_owner_uniqueness (st : TodoState)
    (requester : Option Nat) (did nid mid : Nat) (em role : String)
    (email2 : Option String) (roleField2 : Option String)
    (newDid newMid ownerId2 : Nat) (isPub : Bool)
    (hperm : (check_dashboard_owner_permission st requester did).granted = true)
    (hrole : role ≠ ROLE_EDITOR ∧ role ≠ ROLE_VIEWER)
    (hinv : atMostOneOwner st)
    (hfresh : ∀ m ∈ st.members, m.dashboardId ≠ newDid) :
    member_collection_post st requester did nid (some em) (some role) = (400, st)
    ∧ member_detail_put st requester did mid (some role) = (400, st)
    ∧ atMostOneOwner (member_collection_post st requester did nid email2 roleField2).2
    ∧ atMostOneOwner (member_detail_put st requester did mid roleField2).2
    ∧ atMostOneOwner (member_detail_delete st requester did mid).2
    ∧ atMostOneOwner (create_dashboard st newDid newMid ownerId2 isPub) := by
  have hnonowner : ∀ r2 : String, ¬(r2 ≠ ROLE_EDITOR ∧ r2 ≠ ROLE_VIEWER) →
      r2 ≠ ROLE_OWNER := by
    intro r2 hval
    rcases not_and_or.mp hval with h | h
    · rw [not_not.mp h]; decide
    · rw [not_not.mp h]; decide
  have h1 : member_collection_post st requester did nid (some em) (some role) = (400, st) := by
    simp [member_collection_post, hperm, hrole.1, hrole.2]
  have h2 : member_detail_put st requester did mid (some role) = (400, st) := by
    simp [member_detail_put, hperm, hrole.1, hrole.2]
  have h3 : atMostOneOwner (member_collection_post st requester did nid email2 roleField2).2 := by
    cases email2 with
    | none => simp [member_collection_post, hperm]; exact hinv
    | some em2 =>
      by_cases hval : roleField2.getD ROLE_VIEWER ≠ ROLE_EDITOR
          ∧ roleField2.getD ROLE_VIEWER ≠ ROLE_VIEWER
      case pos =>
        simp [member_collection_post, hperm, hval]
        exact hinv
      case neg =>
        cases hadd : add_member st nid did em2 (roleField2.getD ROLE_VIEWER) with
        | error e =>
          simp [member_collection_post, hperm, hval, hadd]
          exact hinv
        | ok r =>
          simp [member_collection_post, hperm, hval, hadd]
          obtain ⟨uid, hmem⟩ := add_member_ok_state st nid did em2 _ r hadd
          unfold atMostOneOwner
          rw [hmem]
          exact ownersConsistent_append_nonowner _ _ hinv (hnonowner _ hval)
  have h4 : atMostOneOwner (member_detail_put st requester did mid roleField2).2 := by
    cases roleField2 with
    | none => simp [member_detail_put, hperm]; exact hinv
    | some role2 =>
      by_cases hval : role2 ≠ ROLE_EDITOR ∧ role2 ≠ ROLE_VIEWER
      case pos =>
        simp [member_detail_put, hperm, hval]
        exact hinv
      case neg =>
        cases hg : get_member st mid with
        | error e =>
          simp [member_detail_put, hperm, hval, hg]
          exact hinv
        | ok m =>
          by_cases hd : m.dashboardId = did
          case neg =>
            simp [member_detail_put, hperm, hval, hg, hd]
            exact hinv
          case pos =>
            by_cases ho : m.role = ROLE_OWNER
            case pos =>
              simp [member_detail_put, hperm, hval, hg, hd, ho]
              exact hinv
            case neg =>
              cases hup : update_member_role st mid role2 with
              | error e =>
                simp [member_detail_put, hperm, hval, hg, hd, ho, hup]
                exact hinv
              | ok r =>
                simp [member_detail_put, hperm, hval, hg, hd, ho, hup]
                have hmem := update_member_role_ok_state st mid role2 r hup
                unfold atMostOneOwner
                rw [hmem]
                exact ownersConsistent_update_nonowner _ _ _ hinv (hnonowner _ hval)
  have h5 : atMostOneOwner (member_detail_delete st requester did mid).2 := by
    cases hg : get_member st mid with
    | error e =>
      simp [member_detail_delete, hperm, hg]
      exact hinv
    | ok m =>
      by_cases hd : m.dashboardId = did
      case neg =>
        simp [member_detail_delete, hperm, hg, hd]
        exact hinv
      case pos =>
        by_cases ho : m.role = ROLE_OWNER
        case pos =>
          simp [member_detail_delete, hperm, hg, hd, ho]
          exact hinv
        case neg =>
          cases hrm : remove_member st mid with
          | error e =>
            simp [member_detail_delete, hperm, hg, hd, ho, hrm]
            exact hinv
          | ok st2 =>
            simp [member_detail_delete, hperm, hg, hd, ho, hrm]
            have hmem := remove_member_ok_state st mid st2 hrm
            unfold atMostOneOwner
            rw [hmem]
            exact ownersConsistent_filter _ _ hinv
  have h6 : atMostOneOwner (create_dashboard st newDid newMid ownerId2 isPub) := by
    unfold atMostOneOwner create_dashboard
    exact ownersConsistent_cons_fresh _ _ hinv (fun m hm => hfresh m hm)
  exact ⟨h1, h2, h3, h4, h5, h6⟩

/-- C10 witness: in the one-dashboard state, role `owner` is rejected 400
by both member views, and each operation preserves owner uniqueness. -/
theorem c10_role_validation_and_owner_uniqueness_witness :
    member_collection_post c5State (some 1) 1 2 (some "bob@example.com") (some ROLE_OWNER)
        = (400, c5State)
    ∧ member_detail_put c5State (some 1) 1 1 (some ROLE_OWNER) = (400, c5State)
    ∧ atMostOneOwner (member_collection_post c5State (some 1) 1 2 (some "bob@example.com")
        (some ROLE_VIEWER)).2
    ∧ atMostOneOwner (member_detail_put c5State (some 1) 1 1 (some ROLE_VIEWER)).2
    ∧ atMostOneOwner (member_detail_delete c5State (some 1) 1 1).2
    ∧ atMostOneOwner (create_dashboard c5State 2 2 2 false) :=
  c10_role_validation_and_owner_uniqueness c5State (some 1) 1 2 1 "bob@example.com"
    ROLE_OWNER (some "bob@example.com") (some ROLE_VIEWER) 2 2 2 false
    rfl (by decide) (by decide) (by decide)
